import Mathlib

/-!
Shallow embedding of the mini_garage storefront cart, spotlight, and 3D-viewer
logic. Numeric values are modelled as exact rationals; JavaScript numbers that
can be NaN or infinite are modelled by the `JsNum` type.
-/

namespace MiniGarage

/-- A JavaScript number: NaN, positive or negative infinity, or a finite value
(modelled as an exact rational). -/
inductive JsNum where
  | nan : JsNum
  | inf : JsNum
  | negInf : JsNum
  | finite : ℚ → JsNum
  deriving DecidableEq, Repr

/-- Whitespace characters accepted by the JS StringNumericLiteral grammar
(the common ASCII ones plus NBSP). -/
def isJsWhitespace (c : Char) : Bool :=
  c == ' ' || c == '\t' || c == '\n' || c == '\r' ||
  c == '\x0b' || c == '\x0c' || c.toNat == 0xa0

/-- Value of a list of decimal digit characters. -/
def decDigitsVal (ds : List Char) : ℕ :=
  ds.foldl (fun n c => 10 * n + (c.toNat - 48)) 0

/-- Value of a hexadecimal digit character, if it is one. -/
def hexDigitVal (c : Char) : Option ℕ :=
  if c.isDigit then some (c.toNat - 48)
  else if 'a' ≤ c ∧ c ≤ 'f' then some (c.toNat - 87)
  else if 'A' ≤ c ∧ c ≤ 'F' then some (c.toNat - 55)
  else none

/-- Value of an octal digit character, if it is one. -/
def octDigitVal (c : Char) : Option ℕ :=
  if '0' ≤ c ∧ c ≤ '7' then some (c.toNat - 48) else none

/-- Value of a binary digit character, if it is one. -/
def binDigitVal (c : Char) : Option ℕ :=
  if c == '0' then some 0 else if c == '1' then some 1 else none

/-- Parse the exponent part of a decimal literal; the empty list means
exponent 0, otherwise the whole list must be an `e`/`E` exponent. -/
def parseExponent (cs : List Char) : Option ℤ :=
  match cs with
  | [] => some 0
  | c :: rest =>
    if c == 'e' || c == 'E' then
      match rest with
      | '+' :: ds =>
        if !ds.isEmpty && ds.all Char.isDigit then some (decDigitsVal ds) else none
      | '-' :: ds =>
        if !ds.isEmpty && ds.all Char.isDigit then some (-(decDigitsVal ds : ℤ)) else none
      | ds =>
        if !ds.isEmpty && ds.all Char.isDigit then some (decDigitsVal ds) else none
    else none

/-- Parse an unsigned decimal literal (digits, optional fraction, optional
exponent); the whole list must be consumed. -/
def parseDec (cs : List Char) : Option ℚ :=
  let ip := cs.takeWhile Char.isDigit
  match cs.dropWhile Char.isDigit with
  | '.' :: r2 =>
    let fp := r2.takeWhile Char.isDigit
    if ip.isEmpty && fp.isEmpty then none
    else
      (parseExponent (r2.dropWhile Char.isDigit)).map (fun e =>
        ((decDigitsVal ip : ℚ) + (decDigitsVal fp : ℚ) / (10 : ℚ) ^ fp.length)
          * (10 : ℚ) ^ e)
  | r1 =>
    if ip.isEmpty then none
    else (parseExponent r1).map (fun e => (decDigitsVal ip : ℚ) * (10 : ℚ) ^ e)

/-- Parse the body of a possibly signed literal: `Infinity` or a decimal. -/
def parseSignedBody (cs : List Char) (neg : Bool) : Option JsNum :=
  if cs = "Infinity".toList then some (if neg then JsNum.negInf else JsNum.inf)
  else (parseDec cs).map (fun q => JsNum.finite (if neg then -q else q))

/-- Parse a non-decimal integer literal body in the given base. -/
def parseRadix (base : ℕ) (digitVal : Char → Option ℕ) (ds : List Char) : Option JsNum :=
  if ds.isEmpty then none
  else
    (ds.foldl (fun acc c =>
        match acc, digitVal c with
        | some n, some d => some (base * n + d)
        | _, _ => none) (some 0)).map (fun n => JsNum.finite (n : ℚ))

/-- Parse a complete (trimmed, nonempty) StrNumericLiteral. -/
def parseStrNumericLiteral (t : List Char) : Option JsNum :=
  match t with
  | '+' :: rest => parseSignedBody rest false
  | '-' :: rest => parseSignedBody rest true
  | '0' :: c :: rest =>
    if c == 'x' || c == 'X' then parseRadix 16 hexDigitVal rest
    else if c == 'o' || c == 'O' then parseRadix 8 octDigitVal rest
    else if c == 'b' || c == 'B' then parseRadix 2 binDigitVal rest
    else parseSignedBody t false
  | _ => parseSignedBody t false

/-- JS `Number(string)` coercion: trim whitespace, empty means 0, otherwise
parse the numeric literal, anything else is NaN. -/
def jsToNumber (s : String) : JsNum :=
  let t := ((s.toList.dropWhile isJsWhitespace).reverse.dropWhile isJsWhitespace).reverse
  if t.isEmpty then JsNum.finite 0
  else (parseStrNumericLiteral t).getD JsNum.nan

/-- JS truthiness of a number: everything except NaN and zero. -/
def jsTruthy (n : JsNum) : Bool :=
  match n with
  | JsNum.nan => false
  | JsNum.finite q => decide (q ≠ 0)
  | _ => true

/-- The `x || 0` fallback applied to a JS number. -/
def jsOrZero (n : JsNum) : JsNum :=
  if jsTruthy n then n else JsNum.finite 0

/-- Whether a JS number is finite. -/
def JsNum.isFinite : JsNum → Bool
  | JsNum.finite _ => true
  | _ => false

/-- JS addition on possibly non-finite numbers. -/
def jsAdd : JsNum → JsNum → JsNum
  | JsNum.nan, _ => JsNum.nan
  | _, JsNum.nan => JsNum.nan
  | JsNum.inf, JsNum.negInf => JsNum.nan
  | JsNum.negInf, JsNum.inf => JsNum.nan
  | JsNum.inf, _ => JsNum.inf
  | _, JsNum.inf => JsNum.inf
  | JsNum.negInf, _ => JsNum.negInf
  | _, JsNum.negInf => JsNum.negInf
  | JsNum.finite a, JsNum.finite b => JsNum.finite (a + b)

/-- JS multiplication on possibly non-finite numbers. -/
def jsMul : JsNum → JsNum → JsNum
  | JsNum.nan, _ => JsNum.nan
  | _, JsNum.nan => JsNum.nan
  | JsNum.inf, JsNum.inf => JsNum.inf
  | JsNum.inf, JsNum.negInf => JsNum.negInf
  | JsNum.negInf, JsNum.inf => JsNum.negInf
  | JsNum.negInf, JsNum.negInf => JsNum.inf
  | JsNum.inf, JsNum.finite b =>
    if b = 0 then JsNum.nan else if 0 < b then JsNum.inf else JsNum.negInf
  | JsNum.finite a, JsNum.inf =>
    if a = 0 then JsNum.nan else if 0 < a then JsNum.inf else JsNum.negInf
  | JsNum.negInf, JsNum.finite b =>
    if b = 0 then JsNum.nan else if 0 < b then JsNum.negInf else JsNum.inf
  | JsNum.finite a, JsNum.negInf =>
    if a = 0 then JsNum.nan else if 0 < a then JsNum.negInf else JsNum.inf
  | JsNum.finite a, JsNum.finite b => JsNum.finite (a * b)

/-- A cart entry, as declared in the source (`id`, `name`, `price`, `image`,
`qty`); `id` is derived from the product name. -/
structure CartItem where
  id : String
  name : String
  price : JsNum
  image : String
  qty : ℚ
  deriving DecidableEq, Repr

/-- The product fields consumed by `addToCart`. -/
structure Product where
  name : String
  price_now : String
  image : String
  deriving DecidableEq, Repr

/-- The fixed storage key for the cart. -/
def CART_KEY : String := "cart"

/-- `findIndex` plus in-place quantity increment: `some` of the updated list if
an entry with the identifier exists (first match incremented), else `none`. -/
def bumpQty (i : String) (cart : List CartItem) : Option (List CartItem) :=
  match cart with
  | [] => none
  | it :: rest =>
    if it.id = i then some ({ it with qty := it.qty + 1 } :: rest)
    else (bumpQty i rest).map (fun c => it :: c)

/-- `addToCart`: increment the first entry with the product's name as id, or
push a new entry with `qty` 1 and price `Number(price_now) || 0`. -/
def addToCart (p : Product) (cart : List CartItem) : List CartItem :=
  let price := jsOrZero (jsToNumber p.price_now)
  match bumpQty p.name cart with
  | some c => c
  | none => cart ++ [⟨p.name, p.name, price, p.image, 1⟩]

/-- `dec`: map the matching entry to `max 1 (qty - 1)`, then keep only entries
with positive quantity. -/
def dec (i : String) (items : List CartItem) : List CartItem :=
  (items.map (fun it => if it.id = i then { it with qty := max 1 (it.qty - 1) } else it)).filter
    (fun it => decide (0 < it.qty))

/-- The header badge count: `items.reduce((n, it) => n + it.qty, 0)`. -/
def cartCount (items : List CartItem) : ℚ :=
  items.foldl (fun n it => n + it.qty) 0

/-- The header subtotal: `items.reduce((n, it) => n + it.qty * it.price, 0)`. -/
def cartSubtotal (items : List CartItem) : JsNum :=
  items.foldl (fun n it => jsAdd n (jsMul (JsNum.finite it.qty) it.price)) (JsNum.finite 0)

/-- A JSON value, the result of `JSON.parse` on well-formed text. -/
inductive Json where
  | null : Json
  | bool : Bool → Json
  | num : ℚ → Json
  | str : String → Json
  | arr : List Json → Json
  | obj : List (String × Json) → Json

/-- `JSON.stringify` of a JS number as a JSON value: NaN and the infinities
serialize to `null`. -/
def jsNumToJson : JsNum → Json
  | JsNum.finite q => Json.num q
  | _ => Json.null

/-- Serialization of one cart entry. -/
def cartItemToJson (it : CartItem) : Json :=
  Json.obj [("id", Json.str it.id), ("name", Json.str it.name),
    ("price", jsNumToJson it.price), ("image", Json.str it.image),
    ("qty", Json.num it.qty)]

/-- Serialization of a cart list (`JSON.stringify(items)`). -/
def cartToJson (items : List CartItem) : Json :=
  Json.arr (items.map cartItemToJson)

/-- The text held under the storage key, abstracted to whether `JSON.parse`
succeeds on it and, if so, to the parsed value. -/
inductive StoredText where
  | invalid : StoredText
  | json : Json → StoredText

/-- `readCart`: absent or unparseable (throwing) text yields the empty list;
parseable text is returned as-is by the unchecked cast. -/
def readCart : Option StoredText → Json
  | none => Json.arr []
  | some StoredText.invalid => Json.arr []
  | some (StoredText.json j) => j

/-- `writeCart` as it affects storage: the serialized full list. -/
def writeCart (items : List CartItem) : Option StoredText :=
  some (StoredText.json (cartToJson items))

/-- The canonical reading of a JSON value as one cart entry, inverse of
`cartItemToJson` on finite-price entries. -/
def jsonToCartItem : Json → Option CartItem
  | Json.obj [("id", Json.str i), ("name", Json.str n), ("price", Json.num q),
      ("image", Json.str im), ("qty", Json.num qt)] =>
    some ⟨i, n, JsNum.finite q, im, qt⟩
  | _ => none

/-- Decode a list of JSON values as cart entries. -/
def decodeItems : List Json → Option (List CartItem)
  | [] => some []
  | j :: rest =>
    match jsonToCartItem j, decodeItems rest with
    | some it, some l => some (it :: l)
    | _, _ => none

/-- The canonical reading of a JSON value as a cart list. -/
def jsonToCart : Json → Option (List CartItem)
  | Json.arr js => decodeItems js
  | _ => none

/-- Observable side effects of the cart-store write paths. -/
inductive Effect where
  | setItem : String → Json → Effect
  | dispatchEvent : String → List CartItem → Effect

/-- Effects of the header's `writeCart`: persist the serialized list, then
dispatch the `cart:updated` custom event carrying the list. -/
def headerWriteCartEffects (items : List CartItem) : List Effect :=
  [Effect.setItem CART_KEY (cartToJson items),
   Effect.dispatchEvent "cart:updated" items]

/-- Effects of the bento/gift-guide `writeCart` (persist only). -/
def bentoWriteCartEffects (items : List CartItem) : List Effect :=
  [Effect.setItem CART_KEY (cartToJson items)]

/-- Effects of the bento/gift-guide `addToCart`: write the updated list, then
dispatch the `cart:updated` event carrying the updated list. -/
def bentoAddToCartEffects (p : Product) (stored : List CartItem) : List Effect :=
  bentoWriteCartEffects (addToCart p stored) ++
    [Effect.dispatchEvent "cart:updated" (addToCart p stored)]

/-- `calculateSpotlightValues`: full-intensity proximity radius. -/
def spotlightProximity (radius : ℚ) : ℚ := radius * (1 / 2)

/-- `calculateSpotlightValues`: fade-out radius. -/
def spotlightFadeDistance (radius : ℚ) : ℚ := radius * (3 / 4)

/-- The distance value the spotlight handler feeds into the glow thresholds:
pointer-to-card-center distance minus half the card's larger side, clamped
at zero. -/
def cardAdjustedDistance (centerDist w h : ℚ) : ℚ :=
  max 0 (centerDist - max w h / 2)

/-- Glow intensity as a function of the adjusted distance `d`: 1 inside the
proximity radius, linear falloff up to the fade distance, 0 beyond. -/
def glowOfDistance (radius d : ℚ) : ℚ :=
  if d ≤ spotlightProximity radius then 1
  else if d ≤ spotlightFadeDistance radius then
    (spotlightFadeDistance radius - d) /
      (spotlightFadeDistance radius - spotlightProximity radius)
  else 0

/-- Per-card glow intensity computed by `GlobalSpotlight.handleMouseMove` for
a card of size `w × h` whose center is at distance `centerDist` from the
pointer. -/
def cardGlowIntensity (radius centerDist w h : ℚ) : ℚ :=
  glowOfDistance radius (cardAdjustedDistance centerDist w h)

/-- A three-component vector. -/
structure V3 where
  x : ℚ
  y : ℚ
  z : ℚ
  deriving DecidableEq, Repr

/-- `lerpVectors`: `a + (b - a) * t` componentwise. -/
def lerpV3 (a b : V3) (t : ℚ) : V3 :=
  ⟨a.x + (b.x - a.x) * t, a.y + (b.y - a.y) * t, a.z + (b.z - a.z) * t⟩

/-- The ease-in-out cubic curve used by the camera tween. -/
def easeInOutCubic (k : ℚ) : ℚ :=
  if k < 1 / 2 then 4 * k ^ 3 else 1 - (-2 * k + 2) ^ 3 / 2

/-- The mutable state of `CameraTween`. -/
structure TweenState where
  active : Bool
  t : ℚ
  dur : ℚ
  fromPos : V3
  toPos : V3
  fromTarget : V3
  toTarget : V3
  deriving DecidableEq, Repr

/-- One `useFrame` step of `CameraTween`: accumulate elapsed time, clamp the
interpolation parameter, ease it, and move the camera position and orbit
target; deactivate once the parameter reaches 1. -/
def tweenFrame (s : TweenState) (camPos target : V3) (d : ℚ) :
    TweenState × V3 × V3 :=
  if s.active = false then (s, camPos, target)
  else
    let t2 := s.t + d
    let k := min 1 (t2 / s.dur)
    let e := easeInOutCubic k
    ({ s with t := t2, active := decide (k < 1) },
     lerpV3 s.fromPos s.toPos e, lerpV3 s.fromTarget s.toTarget e)

/-- A delayed state transition scheduled by the add-button handler. -/
inductive TimerAction where
  | setStatus : ℕ → TimerAction
  | setLoading : Bool → TimerAction
  deriving DecidableEq, Repr

/-- State touched by `AddButton.handle`: the busy flag, the status
(0 idle, 1 success, 2 fail), the stored cart, and pending timers
(delay in milliseconds paired with the transition). -/
structure AddButtonState where
  loading : Bool
  status : ℕ
  stored : List CartItem
  timers : List (ℚ × TimerAction)
  deriving DecidableEq, Repr

/-- `AddButton.handle`: a no-op while busy; otherwise set busy, reset status,
attempt the mutation (`throws` tells whether it raised), and schedule the
delayed status/busy transitions of the matching branch. -/
def handleAdd (p : Product) (throws : Bool) (s : AddButtonState) : AddButtonState :=
  if s.loading then s
  else if throws then
    { s with
      loading := true,
      status := 2,
      timers := s.timers ++ [(1500, TimerAction.setStatus 0),
        (400, TimerAction.setLoading false)] }
  else
    { s with
      loading := true,
      status := 0,
      stored := addToCart p s.stored,
      timers := s.timers ++ [(100, TimerAction.setStatus 1),
        (1500, TimerAction.setStatus 0), (400, TimerAction.setLoading false)] }

/-- The named camera presets of the 3D viewer. -/
inductive ViewKey where
  | front : ViewKey
  | side : ViewKey
  | back : ViewKey
  | interior : ViewKey
  | full : ViewKey
  deriving DecidableEq, Repr

/-- A stored camera preset: position and look-at target. -/
structure ViewDefn where
  pos : V3
  target : V3
  deriving DecidableEq, Repr

/-- The per-product view data after the JSON-to-vector build step: `none`
models a preset that is null or missing in the product's data. -/
structure CarViews where
  front : Option ViewDefn
  side : Option ViewDefn
  back : Option ViewDefn
  interior : Option ViewDefn
  deriving DecidableEq, Repr

/-- Lookup of a non-`full` preset in the built view record. -/
def viewsLookup (vs : CarViews) : ViewKey → Option ViewDefn
  | ViewKey.front => vs.front
  | ViewKey.side => vs.side
  | ViewKey.back => vs.back
  | ViewKey.interior => vs.interior
  | ViewKey.full => none

/-- The `disabled` computation of the preset button row:
`key === "full" ? false : !views[key]`. -/
def presetDisabled (vs : CarViews) (k : ViewKey) : Bool :=
  match k with
  | ViewKey.full => false
  | k => (viewsLookup vs k).isNone

/-- The `go` click handler: `full` tweens back to the initial load-computed
camera position and orbit target; other keys tween to the preset when
present and do nothing when absent. Duration is always 0.8 seconds. -/
def goCommand (vs : CarViews) (initPos initTarget : V3) (k : ViewKey) :
    Option (V3 × V3 × ℚ) :=
  match k with
  | ViewKey.full => some (initPos, initTarget, 4 / 5)
  | k => (viewsLookup vs k).map (fun v => (v.pos, v.target, 4 / 5))

/-- Count of cart entries carrying a given identifier. -/
def countOfId (i : String) (items : List CartItem) : ℕ :=
  (items.filter (fun it => decide (it.id = i))).length

/-- Total quantity over the cart entries carrying a given identifier. -/
def qtyOfId (i : String) (items : List CartItem) : ℚ :=
  ((items.filter (fun it => decide (it.id = i))).map CartItem.qty).sum

/-- Sum of the quantities of all entries (the badge count, as specified). -/
def specCount (items : List CartItem) : ℚ :=
  (items.map CartItem.qty).sum

/-- Sum over all entries of quantity times unit price (the subtotal, as
specified). -/
def specSubtotal : List CartItem → JsNum
  | [] => JsNum.finite 0
  | it :: rest => jsAdd (jsMul (JsNum.finite it.qty) it.price) (specSubtotal rest)

/-! Helper lemmas. -/

theorem jsAdd_finite_zero (a : JsNum) : jsAdd a (JsNum.finite 0) = a := by
  cases a <;> simp [jsAdd]

theorem jsAdd_zero_finite (a : JsNum) : jsAdd (JsNum.finite 0) a = a := by
  cases a <;> simp [jsAdd]

theorem jsAdd_assoc (a b c : JsNum) :
    jsAdd (jsAdd a b) c = jsAdd a (jsAdd b c) := by
  cases a <;> cases b <;> cases c <;> simp [jsAdd, add_assoc]

theorem cartSubtotal_go (items : List CartItem) (a : JsNum) :
    items.foldl (fun n it => jsAdd n (jsMul (JsNum.finite it.qty) it.price)) a
      = jsAdd a (specSubtotal items) := by
  induction items generalizing a with
  | nil => simp [specSubtotal, jsAdd_finite_zero]
  | cons it rest ih => simp [specSubtotal, ih, jsAdd_assoc]

theorem cartCount_go (items : List CartItem) (c : ℚ) :
    items.foldl (fun n it => n + it.qty) c = c + specCount items := by
  induction items generalizing c with
  | nil => simp [specCount]
  | cons it rest ih =>
    simp only [List.foldl_cons, ih, specCount, List.map_cons, List.sum_cons]
    ring

theorem countOfId_append (i : String) (l1 l2 : List CartItem) :
    countOfId i (l1 ++ l2) = countOfId i l1 + countOfId i l2 := by
  simp [countOfId, List.filter_append]

theorem qtyOfId_append (i : String) (l1 l2 : List CartItem) :
    qtyOfId i (l1 ++ l2) = qtyOfId i l1 + qtyOfId i l2 := by
  simp [qtyOfId, List.filter_append]

theorem qtyOfId_eq_zero (i : String) (l : List CartItem)
    (h : countOfId i l = 0) : qtyOfId i l = 0 := by
  have hf : l.filter (fun it => decide (it.id = i)) = [] :=
    List.length_eq_zero.1 h
  simp [qtyOfId, hf]

theorem bumpQty_eq_none (i : String) (cart : List CartItem) :
    bumpQty i cart = none ↔ countOfId i cart = 0 := by
  induction cart with
  | nil => simp [bumpQty, countOfId]
  | cons it rest ih =>
    by_cases h : it.id = i
    · simp [bumpQty, h, countOfId, List.filter_cons]
    · simp [bumpQty, h, countOfId, List.filter_cons, Option.map_eq_none]
      simpa [countOfId] using ih

theorem bumpQty_some_counts (i : String) (cart c : List CartItem)
    (h : bumpQty i cart = some c) :
    countOfId i c = countOfId i cart ∧ qtyOfId i c = qtyOfId i cart + 1 := by
  induction cart generalizing c with
  | nil => simp [bumpQty] at h
  | cons it rest ih =>
    by_cases hid : it.id = i
    · simp only [bumpQty, if_pos hid, Option.some.injEq] at h
      subst h
      constructor
      · simp [countOfId, List.filter_cons, hid]
      · simp [qtyOfId, List.filter_cons, hid]
        try ring
    · have hmap : (bumpQty i rest).map (fun c => it :: c) = some c := by
        simpa [bumpQty, hid] using h
      cases hb : bumpQty i rest with
      | none => rw [hb] at hmap; simp at hmap
      | some c2 =>
        rw [hb] at hmap
        simp at hmap
        subst hmap
        obtain ⟨h1, h2⟩ := ih c2 hb
        constructor
        · simp [countOfId, List.filter_cons, hid]
          simpa [countOfId] using h1
        · simp [qtyOfId, List.filter_cons, hid]
          simpa [qtyOfId] using h2

theorem addToCart_counts (p : Product) (cart : List CartItem) :
    countOfId p.name (addToCart p cart)
      = (if countOfId p.name cart = 0 then 1 else countOfId p.name cart) ∧
    qtyOfId p.name (addToCart p cart) = qtyOfId p.name cart + 1 := by
  unfold addToCart
  cases h : bumpQty p.name cart with
  | none =>
    have h0 : countOfId p.name cart = 0 := (bumpQty_eq_none _ _).1 h
    have hq0 : qtyOfId p.name cart = 0 := qtyOfId_eq_zero _ _ h0
    constructor
    · rw [countOfId_append, h0]
      simp [countOfId, List.filter_cons]
    · rw [qtyOfId_append, hq0]
      simp [qtyOfId, List.filter_cons]
  | some c =>
    have hne : countOfId p.name cart ≠ 0 := by
      intro h0
      rw [← bumpQty_eq_none] at h0
      simp [h0] at h
    obtain ⟨h1, h2⟩ := bumpQty_some_counts _ _ _ h
    simp [h1, h2, hne]

theorem jsonToCartItem_round (it : CartItem) (h : it.price.isFinite = true) :
    jsonToCartItem (cartItemToJson it) = some it := by
  obtain ⟨i, n, pr, im, q⟩ := it
  cases pr <;> simp [JsNum.isFinite] at h
  simp [cartItemToJson, jsNumToJson, jsonToCartItem]

theorem decodeItems_round (l : List CartItem)
    (h : ∀ it ∈ l, it.price.isFinite = true) :
    decodeItems (l.map cartItemToJson) = some l := by
  induction l with
  | nil => simp [decodeItems]
  | cons it rest ih =>
    simp only [List.map_cons, decodeItems,
      jsonToCartItem_round it (h it (by simp)),
      ih (fun x hx => h x (by simp [hx]))]

theorem lerpV3_one (a b : V3) : lerpV3 a b 1 = b := by
  obtain ⟨bx, by2, bz⟩ := b
  simp only [lerpV3, V3.mk.injEq]
  refine ⟨by ring, by ring, by ring⟩

/-! Claim theorems. -/

/-- Claim C1, evaluated at the failing input: decrementing the single
quantity-1 entry keeps it in the list with quantity 1 — the entry is not
removed, contradicting the claim that a quantity-1 item is removed.
(`Math.max(1, qty - 1)` floors the quantity at 1, so the `qty > 0` filter
never removes the decremented entry.) -/
theorem dec_qty_one_keeps_entry :
    dec "BMW E34"
        [⟨"BMW E34", "BMW E34", JsNum.finite 24, "/gift_guide_image/bmw_e34.webp", 1⟩]
      = [⟨"BMW E34", "BMW E34", JsNum.finite 24, "/gift_guide_image/bmw_e34.webp", 1⟩] := by
  norm_num [dec, max_def]

/-- Claim C10: the header badge count equals the sum of the quantities of all
entries, and the header subtotal equals the sum over all entries of quantity
times unit price. -/
theorem header_count_subtotal_spec (items : List CartItem) :
    cartCount items = specCount items ∧ cartSubtotal items = specSubtotal items := by
  constructor
  · simpa [cartCount] using cartCount_go items 0
  · calc cartSubtotal items
        = jsAdd (JsNum.finite 0) (specSubtotal items) := cartSubtotal_go items _
      _ = specSubtotal items := jsAdd_zero_finite _

/-- Claim C8: both cart-write paths persist the serialized full item list
under the fixed storage key and dispatch the in-page `cart:updated` custom
event whose payload is exactly the updated cart list. -/
theorem cartWrite_broadcasts_updated_list (items stored : List CartItem) (p : Product) :
    headerWriteCartEffects items =
      [Effect.setItem CART_KEY (cartToJson items),
       Effect.dispatchEvent "cart:updated" items] ∧
    bentoAddToCartEffects p stored =
      [Effect.setItem CART_KEY (cartToJson (addToCart p stored)),
       Effect.dispatchEvent "cart:updated" (addToCart p stored)] :=
  ⟨rfl, rfl⟩

/-- Claim C7: every preset button other than `full` is disabled exactly when
the preset is absent from the current product's view data; the `full` button
is never disabled; and invoking `full` tweens back to the initial
load-computed camera position and orbit target. -/
theorem preset_disabled_and_full_spec (vs : CarViews) (ip itgt : V3) :
    (∀ k : ViewKey, k ≠ ViewKey.full →
      (presetDisabled vs k = true ↔ viewsLookup vs k = none)) ∧
    presetDisabled vs ViewKey.full = false ∧
    goCommand vs ip itgt ViewKey.full = some (ip, itgt, 4 / 5) := by
  refine ⟨?_, rfl, rfl⟩
  intro k hk
  cases k <;>
    first
      | exact absurd rfl hk
      | simp [presetDisabled, viewsLookup, Option.isNone_iff_eq_none]

/-- Witness for C7 at a product with no stored presets. -/
theorem preset_disabled_and_full_spec_witness :
    (ViewKey.front ≠ ViewKey.full) ∧
    (presetDisabled ⟨none, none, none, none⟩ ViewKey.front = true ↔
      viewsLookup ⟨none, none, none, none⟩ ViewKey.front = none) :=
  ⟨by decide,
   (preset_disabled_and_full_spec ⟨none, none, none, none⟩ ⟨0, 0, 0⟩ ⟨0, 0, 0⟩).1
     ViewKey.front (by decide)⟩

/-- Claim C5: once the accumulated elapsed time reaches or exceeds the
configured (positive) duration, the frame step puts the camera exactly at
the tween's target position and the orbit target exactly at the tween's
look-at vector. -/
theorem tweenFrame_reaches_target (s : TweenState) (camPos target : V3) (d : ℚ)
    (hact : s.active = true) (hdur : 0 < s.dur) (hreach : s.dur ≤ s.t + d) :
    (tweenFrame s camPos target d).2.1 = s.toPos ∧
    (tweenFrame s camPos target d).2.2 = s.toTarget := by
  have hk1 : (1 : ℚ) ≤ (s.t + d) / s.dur := (one_le_div hdur).2 hreach
  have hk : min 1 ((s.t + d) / s.dur) = 1 := min_eq_left hk1
  have he : easeInOutCubic 1 = 1 := by norm_num [easeInOutCubic]
  constructor <;> simp [tweenFrame, hact, hk, he, lerpV3_one]

/-- Witness for C5: a concrete tween of duration 0.8 stepped by a frame of
1 second lands exactly on the target position and look-at vector. -/
theorem tweenFrame_reaches_target_witness :
    ((0 : ℚ) < 4 / 5 ∧ (4 / 5 : ℚ) ≤ 0 + 1) ∧
    (tweenFrame ⟨true, 0, 4 / 5, ⟨0, 0, 0⟩, ⟨1, 2, 3⟩, ⟨0, 0, 0⟩, ⟨4, 5, 6⟩⟩
        ⟨9, 9, 9⟩ ⟨9, 9, 9⟩ 1).2.1 = ⟨1, 2, 3⟩ ∧
    (tweenFrame ⟨true, 0, 4 / 5, ⟨0, 0, 0⟩, ⟨1, 2, 3⟩, ⟨0, 0, 0⟩, ⟨4, 5, 6⟩⟩
        ⟨9, 9, 9⟩ ⟨9, 9, 9⟩ 1).2.2 = ⟨4, 5, 6⟩ := by
  refine ⟨⟨by norm_num, by norm_num⟩, ?_, ?_⟩
  · exact (tweenFrame_reaches_target _ _ _ _ rfl (by norm_num) (by norm_num)).1
  · exact (tweenFrame_reaches_target _ _ _ _ rfl (by norm_num) (by norm_num)).2

/-- Claim C6: invoking the add handler while busy is a no-op; otherwise it
sets busy, performs the cart mutation synchronously, and schedules the
success-branch transitions (success after 100 ms, idle after 1500 ms) or, on
a thrown mutation, transitions to fail and back to idle on the same 1500 ms
schedule (busy clears after 400 ms in both branches). -/
theorem handleAdd_state_machine_spec (p : Product) (throws : Bool) (s : AddButtonState) :
    (s.loading = true → handleAdd p throws s = s) ∧
    (s.loading = false →
      (handleAdd p throws s).loading = true ∧
      (throws = false →
        (handleAdd p throws s).stored = addToCart p s.stored ∧
        (handleAdd p throws s).status = 0 ∧
        (handleAdd p throws s).timers = s.timers ++
          [(100, TimerAction.setStatus 1), (1500, TimerAction.setStatus 0),
           (400, TimerAction.setLoading false)]) ∧
      (throws = true →
        (handleAdd p throws s).stored = s.stored ∧
        (handleAdd p throws s).status = 2 ∧
        (handleAdd p throws s).timers = s.timers ++
          [(1500, TimerAction.setStatus 0), (400, TimerAction.setLoading false)])) := by
  refine ⟨fun hb => by simp [handleAdd, hb], fun hb => ⟨?_, fun ht => ?_, fun ht => ?_⟩⟩
  · cases throws <;> simp [handleAdd, hb]
  · subst ht; simp [handleAdd, hb]
  · subst ht; simp [handleAdd, hb]

/-- Witness for C6: with the busy flag set, the handler leaves the state
untouched. -/
theorem handleAdd_state_machine_spec_witness :
    handleAdd ⟨"BMW E34", "24", ""⟩ false ⟨true, 0, [], []⟩ = ⟨true, 0, [], []⟩ :=
  (handleAdd_state_machine_spec ⟨"BMW E34", "24", ""⟩ false ⟨true, 0, [], []⟩).1 rfl

/-- Claim C2: on any cart state satisfying the data-model invariant (at most
one entry per identifier), adding the same product twice yields exactly one
entry under the product's name whose quantity is 2 more than before; in
particular the "BMW E34" scenario stores `qty 1` then `qty 2` with a single
entry. -/
theorem addToCart_twice_single_entry (cart : List CartItem) (p : Product)
    (hinv : countOfId p.name cart ≤ 1) :
    countOfId p.name (addToCart p (addToCart p cart)) = 1 ∧
    qtyOfId p.name (addToCart p (addToCart p cart)) = qtyOfId p.name cart + 2 ∧
    addToCart ⟨"BMW E34", "24", "/gift_guide_image/bmw_e34.webp"⟩ [] =
      [⟨"BMW E34", "BMW E34", JsNum.finite 24, "/gift_guide_image/bmw_e34.webp", 1⟩] ∧
    addToCart ⟨"BMW E34", "24", "/gift_guide_image/bmw_e34.webp"⟩
        [⟨"BMW E34", "BMW E34", JsNum.finite 24, "/gift_guide_image/bmw_e34.webp", 1⟩] =
      [⟨"BMW E34", "BMW E34", JsNum.finite 24, "/gift_guide_image/bmw_e34.webp", 2⟩] := by
  obtain ⟨hc1, hq1⟩ := addToCart_counts p cart
  obtain ⟨hc2, hq2⟩ := addToCart_counts p (addToCart p cart)
  have hone : countOfId p.name (addToCart p cart) = 1 := by
    rw [hc1]
    rcases Nat.le_one_iff_eq_zero_or_eq_one.1 hinv with h | h <;> simp [h]
  refine ⟨?_, ?_, ?_, ?_⟩
  · rw [hc2, hone]; simp
  · rw [hq2, hq1]; ring
  · simp [addToCart, bumpQty, jsOrZero, jsTruthy, jsToNumber, isJsWhitespace,
      parseStrNumericLiteral, parseSignedBody, parseDec, parseExponent, decDigitsVal]
  · simp [addToCart, bumpQty]
    norm_num

/-- Witness for C2: starting from the empty cart (which trivially satisfies
the invariant), the double add leaves exactly one "BMW E34" entry. -/
theorem addToCart_twice_single_entry_witness :
    countOfId "BMW E34" ([] : List CartItem) ≤ 1 ∧
    countOfId "BMW E34"
      (addToCart ⟨"BMW E34", "24", "/gift_guide_image/bmw_e34.webp"⟩
        (addToCart ⟨"BMW E34", "24", "/gift_guide_image/bmw_e34.webp"⟩ [])) = 1 := by
  refine ⟨by simp [countOfId], ?_⟩
  exact (addToCart_twice_single_entry []
    ⟨"BMW E34", "24", "/gift_guide_image/bmw_e34.webp"⟩ (by simp [countOfId])).1

/-- Counterexample to C3 as stated: the stored text `5` is valid JSON but is
not serialized cart data (no cart list serializes to it), yet `readCart`
returns it unchanged instead of the empty list. -/
theorem readCart_corrupt_counterexample :
    readCart (some (StoredText.json (Json.num 5))) = Json.num 5 ∧
    readCart (some (StoredText.json (Json.num 5))) ≠ Json.arr [] ∧
    (¬ ∃ l : List CartItem, cartToJson l = Json.num 5) ∧
    jsonToCart (readCart (some (StoredText.json (Json.num 5)))) = none := by
  refine ⟨rfl, by simp [readCart], ?_, rfl⟩
  rintro ⟨l, hl⟩
  simp [cartToJson] at hl

/-- Claim C3 as amended: serializing a cart list whose prices are finite and
reading it back recovers exactly that list; absent or JSON-unparseable stored
text reads as the empty list; any successfully parsed stored value is
returned as-is by the unchecked cast. -/
theorem readCart_writeCart_roundtrip :
    (∀ l : List CartItem, (∀ it ∈ l, it.price.isFinite = true) →
      jsonToCart (readCart (writeCart l)) = some l) ∧
    readCart none = Json.arr [] ∧
    readCart (some StoredText.invalid) = Json.arr [] ∧
    (∀ j : Json, readCart (some (StoredText.json j)) = j) := by
  refine ⟨?_, rfl, rfl, fun j => rfl⟩
  intro l h
  simp only [writeCart, readCart, cartToJson, jsonToCart]
  exact decodeItems_round l h

/-- Witness for C3: the one-entry "BMW E34" cart round-trips through
storage. -/
theorem readCart_writeCart_roundtrip_witness :
    (∀ it ∈ [(⟨"BMW E34", "BMW E34", JsNum.finite 24, "/gift_guide_image/bmw_e34.webp", 1⟩ :
        CartItem)], it.price.isFinite = true) ∧
    jsonToCart (readCart (writeCart
        [⟨"BMW E34", "BMW E34", JsNum.finite 24, "/gift_guide_image/bmw_e34.webp", 1⟩])) =
      some [⟨"BMW E34", "BMW E34", JsNum.finite 24, "/gift_guide_image/bmw_e34.webp", 1⟩] := by
  refine ⟨by simp [JsNum.isFinite], ?_⟩
  exact readCart_writeCart_roundtrip.1 _ (by simp [JsNum.isFinite])

/-- Counterexample to C4 as stated: with spotlight radius 300 (fade-out
radius 225), a 200 × 200 card whose center is 300 away from the pointer —
beyond the fade-out radius — still gets glow intensity 1/3, not 0, because
the code subtracts half the card's larger side from the center distance
before thresholding. -/
theorem cardGlow_center_distance_counterexample :
    spotlightProximity 300 = 150 ∧ spotlightFadeDistance 300 = 225 ∧
    (225 : ℚ) < 300 ∧ cardGlowIntensity 300 300 200 200 = 1 / 3 := by
  refine ⟨by norm_num [spotlightProximity], by norm_num [spotlightFadeDistance],
    by norm_num, ?_⟩
  norm_num [cardGlowIntensity, glowOfDistance, cardAdjustedDistance,
    spotlightProximity, spotlightFadeDistance, max_def]

/-- Claim C4 as amended: the glow intensity always lies in [0,1] and, as a
function of the adjusted distance `max 0 (centerDist - max w h / 2)` (the
pointer-to-center distance minus half the card's larger side, clamped at
zero), it is exactly 1 up to the proximity radius, exactly 0 beyond the
fade-out radius, and strictly decreasing (linearly) in between. -/
theorem cardGlow_adjusted_distance_spec (radius centerDist w h : ℚ)
    (hr : 0 < radius) :
    (0 ≤ cardGlowIntensity radius centerDist w h ∧
      cardGlowIntensity radius centerDist w h ≤ 1) ∧
    (cardAdjustedDistance centerDist w h ≤ spotlightProximity radius →
      cardGlowIntensity radius centerDist w h = 1) ∧
    (spotlightFadeDistance radius < cardAdjustedDistance centerDist w h →
      cardGlowIntensity radius centerDist w h = 0) ∧
    (∀ d1 d2 : ℚ, spotlightProximity radius < d1 → d1 < d2 →
      d2 ≤ spotlightFadeDistance radius →
      glowOfDistance radius d2 < glowOfDistance radius d1) := by
  have hpf : spotlightProximity radius < spotlightFadeDistance radius := by
    simp only [spotlightProximity, spotlightFadeDistance]
    nlinarith
  have hden : 0 < spotlightFadeDistance radius - spotlightProximity radius := by
    linarith
  refine ⟨?_, fun hle => ?_, fun hgt => ?_, fun d1 d2 hp1 h12 h2f => ?_⟩
  · simp only [cardGlowIntensity, glowOfDistance]
    split_ifs with h1 h2
    · norm_num
    · constructor
      · apply div_nonneg <;> linarith
      · rw [div_le_one hden]
        linarith [not_le.1 h1]
    · norm_num
  · simp [cardGlowIntensity, glowOfDistance, hle]
  · have h1 : ¬ (cardAdjustedDistance centerDist w h ≤ spotlightProximity radius) := by
      linarith
    have h2 : ¬ (cardAdjustedDistance centerDist w h ≤ spotlightFadeDistance radius) := by
      linarith
    simp [cardGlowIntensity, glowOfDistance, h1, h2]
  · have e1 : glowOfDistance radius d1 =
        (spotlightFadeDistance radius - d1) /
          (spotlightFadeDistance radius - spotlightProximity radius) := by
      simp only [glowOfDistance]
      rw [if_neg (by linarith), if_pos (by linarith)]
    have e2 : glowOfDistance radius d2 =
        (spotlightFadeDistance radius - d2) /
          (spotlightFadeDistance radius - spotlightProximity radius) := by
      simp only [glowOfDistance]
      rw [if_neg (by linarith), if_pos (by linarith)]
    rw [e1, e2, div_lt_div_iff₀ hden hden]
    nlinarith

/-- Witness for C4: radius 300, pointer at the exact center of a 200 × 200
card — adjusted distance 0, inside the proximity radius — gives glow
intensity exactly 1 (the spec's example scenario). -/
theorem cardGlow_adjusted_distance_spec_witness :
    ((0 : ℚ) < 300 ∧
      cardAdjustedDistance 0 200 200 ≤ spotlightProximity 300) ∧
    cardGlowIntensity 300 0 200 200 = 1 := by
  have hd : cardAdjustedDistance 0 200 200 ≤ spotlightProximity 300 := by
    norm_num [cardAdjustedDistance, spotlightProximity, max_def]
  exact ⟨⟨by norm_num, hd⟩, (cardGlow_adjusted_distance_spec 300 0 200 200 (by norm_num)).2.1 hd⟩

/-- Counterexample to C9 as stated: `"Infinity"` does not parse to a finite
nonzero number, yet the inserted entry's unit price is Infinity, not 0
(`Number("Infinity")` is truthy, so the `|| 0` fallback is skipped). -/
theorem addToCart_infinite_price_counterexample :
    jsToNumber "Infinity" = JsNum.inf ∧
    addToCart ⟨"X", "Infinity", "img"⟩ [] = [⟨"X", "X", JsNum.inf, "img", 1⟩] ∧
    JsNum.inf ≠ JsNum.finite 0 := by
  refine ⟨?_, ?_, by simp⟩
  · simp [jsToNumber, isJsWhitespace, parseStrNumericLiteral, parseSignedBody]
  · simp [addToCart, bumpQty, jsOrZero, jsTruthy, jsToNumber, isJsWhitespace,
      parseStrNumericLiteral, parseSignedBody]

/-- Claim C9 as amended: when the product's identifier is new, `addToCart`
appends an entry priced `Number(price_now) || 0`; that price is 0 exactly
when the string parses to NaN or zero (the falsy numbers), and equals the
parsed value — finite or infinite — whenever that value is nonzero. -/
theorem addToCart_price_fallback (p : Product) (cart : List CartItem)
    (habs : countOfId p.name cart = 0) :
    addToCart p cart =
      cart ++ [⟨p.name, p.name, jsOrZero (jsToNumber p.price_now), p.image, 1⟩] ∧
    ((jsToNumber p.price_now = JsNum.nan ∨ jsToNumber p.price_now = JsNum.finite 0) →
      jsOrZero (jsToNumber p.price_now) = JsNum.finite 0) ∧
    (∀ q : ℚ, q ≠ 0 → jsToNumber p.price_now = JsNum.finite q →
      jsOrZero (jsToNumber p.price_now) = JsNum.finite q) ∧
    (jsToNumber p.price_now = JsNum.inf → jsOrZero (jsToNumber p.price_now) = JsNum.inf) ∧
    (jsToNumber p.price_now = JsNum.negInf →
      jsOrZero (jsToNumber p.price_now) = JsNum.negInf) := by
  refine ⟨?_, ?_, ?_, ?_, ?_⟩
  · have hnone : bumpQty p.name cart = none := (bumpQty_eq_none _ _).2 habs
    simp [addToCart, hnone]
  · rintro (hn | hn) <;> simp [jsOrZero, jsTruthy, hn]
  · intro q hq hn
    simp [jsOrZero, jsTruthy, hn, hq]
  · intro hn; simp [jsOrZero, jsTruthy, hn]
  · intro hn; simp [jsOrZero, jsTruthy, hn]

/-- Witness for C9: adding "BMW E34" (price string "24") to the empty cart
appends the entry with the fallback-processed price. -/
theorem addToCart_price_fallback_witness :
    countOfId "BMW E34" ([] : List CartItem) = 0 ∧
    addToCart ⟨"BMW E34", "24", "/gift_guide_image/bmw_e34.webp"⟩ [] =
      [] ++ [⟨"BMW E34", "BMW E34", jsOrZero (jsToNumber "24"),
        "/gift_guide_image/bmw_e34.webp", 1⟩] := by
  refine ⟨by simp [countOfId], ?_⟩
  exact (addToCart_price_fallback ⟨"BMW E34", "24", "/gift_guide_image/bmw_e34.webp"⟩ []
    (by simp [countOfId])).1

end MiniGarage
